import Mathlib

/-
  Verification of the overflow-safe constant-product swap engine from
  trident-tests/fuzz_targets/fuzz_arithmetic.rs.

  Machine integers are modelled as Nat with explicit bounds: a u64 value is a
  Nat below U64_MOD, a u128 value a Nat below U128_MOD.  The Rust checked
  operations become Option-valued Lean functions, the fallible swap becomes an
  Except-valued function whose error strings are exactly the Rust ones.
-/

/-- First value too large for a u64, that is 2 to the power 64. -/
def U64_MOD : Nat := 2 ^ 64

/-- Largest u64 value. -/
def U64_MAX : Nat := U64_MOD - 1

/-- First value too large for a u128, that is 2 to the power 128. -/
def U128_MOD : Nat := 2 ^ 128

/-- Rust u128 checked_mul: some product unless it exceeds the u128 range. -/
def checked_mul_u128 (a b : Nat) : Option Nat :=
  if a * b < U128_MOD then some (a * b) else none

/-- Rust u128 checked_add: some sum unless it exceeds the u128 range. -/
def checked_add_u128 (a b : Nat) : Option Nat :=
  if a + b < U128_MOD then some (a + b) else none

/-- Rust u64 try_from on a u128 value: fails when the value exceeds u64 MAX. -/
def u64_try_from (v : Nat) : Option Nat :=
  if v ≤ U64_MAX then some v else none

/-- Rust u64 checked_add: some sum unless it exceeds the u64 range. -/
def checked_add_u64 (a b : Nat) : Option Nat :=
  if a + b ≤ U64_MAX then some (a + b) else none

/-- Rust u64 checked_sub: some difference unless the subtraction would go
negative. -/
def checked_sub_u64 (a b : Nat) : Option Nat :=
  if b ≤ a then some (a - b) else none

/-- The secure swap of fuzz_arithmetic.rs, step for step: zero-input check,
u128 widening, checked numerator multiplication, checked denominator addition,
division guard, truncating division, fallible narrowing to u64, slippage
check, reserves check, checked reserve updates.  Error strings are the Rust
ones. -/
def secure_swap (amount_in min_out reserve_x reserve_y : Nat) :
    Except String (Nat × Nat × Nat) :=
  if amount_in = 0 then Except.error "InvalidAmount: amount_in is zero"
  else
    match checked_mul_u128 amount_in reserve_y with
    | none => Except.error "MathOverflow: numerator overflow"
    | some numerator =>
      match checked_add_u128 reserve_x amount_in with
      | none => Except.error "MathOverflow: denominator overflow"
      | some denominator =>
        if denominator = 0 then Except.error "MathOverflow: division by zero"
        else
          match u64_try_from (numerator / denominator) with
          | none => Except.error "MathOverflow: result too large for u64"
          | some amount_out =>
            if amount_out < min_out then
              Except.error "SlippageExceeded: output below minimum"
            else if amount_out > reserve_y then
              Except.error "InsufficientReserves: not enough Y in pool"
            else
              match checked_add_u64 reserve_x amount_in with
              | none => Except.error "MathOverflow: reserve_x overflow"
              | some new_reserve_x =>
                match checked_sub_u64 reserve_y amount_out with
                | none => Except.error "MathOverflow: reserve_y underflow"
                | some new_reserve_y =>
                  Except.ok (amount_out, new_reserve_x, new_reserve_y)

/-- The final reserve update step of secure_swap in isolation: the checked
subtraction of amount_out from reserve_y together with the error string the
code attaches to its failure (lines 124 to 126 of fuzz_arithmetic.rs). -/
def sub_reserve_step (reserve_y amount_out : Nat) : Except String Nat :=
  match checked_sub_u64 reserve_y amount_out with
  | none => Except.error "MathOverflow: reserve_y underflow"
  | some v => Except.ok v

/-- The kind of an error string: the text before the first colon. -/
def errorKind (e : String) : String :=
  String.mk (e.data.takeWhile (fun c => c ≠ ':'))

/-- The exact quotient the oracle computes at unbounded precision. -/
def oracle_out (amount_in reserve_x reserve_y : Nat) : Nat :=
  amount_in * reserve_y / (reserve_x + amount_in)

/- ### Basic arithmetic facts about the quotient -/

/-- The quotient never exceeds reserve_y. -/
theorem oracle_le_reserve (a x y : Nat) : oracle_out a x y ≤ y := by
  unfold oracle_out
  rcases Nat.eq_zero_or_pos (x + a) with h | h
  · simp [h]
  · calc a * y / (x + a) ≤ (x + a) * y / (x + a) :=
        Nat.div_le_div_right (Nat.mul_le_mul_right y (by omega))
    _ = y := Nat.mul_div_cancel_left y h

/-- With a positive input reserve the quotient is strictly below reserve_y. -/
theorem oracle_lt_reserve (a x y : Nat) (ha : 0 < a) (hx : 0 < x)
    (hy : 0 < y) : oracle_out a x y < y := by
  unfold oracle_out
  have hd : 0 < x + a := by omega
  rw [Nat.div_lt_iff_lt_mul hd]
  have hxy : 0 < y * x := Nat.mul_pos hy hx
  calc a * y = y * a := Nat.mul_comm a y
  _ < y * x + y * a := by omega
  _ = y * (x + a) := by ring

/-- The numerator multiplication of two u64 values always fits in u128. -/
theorem mul_fits_u128 (a y : Nat) (haU : a < U64_MOD) (hyU : y < U64_MOD) :
    a * y < U128_MOD := by
  have h1 : a * y < U64_MOD * U64_MOD :=
    mul_lt_mul'' haU hyU (Nat.zero_le a) (Nat.zero_le y)
  have h2 : U64_MOD * U64_MOD = U128_MOD := by unfold U64_MOD U128_MOD; ring
  omega

/-- The denominator addition of two u64 values always fits in u128. -/
theorem add_fits_u128 (x a : Nat) (hxU : x < U64_MOD) (haU : a < U64_MOD) :
    x + a < U128_MOD := by
  have h2 : U64_MOD + U64_MOD ≤ U128_MOD := by unfold U64_MOD U128_MOD; norm_num
  omega

/-- Run lemma: for u64-bounded inputs with a positive amount, secure_swap
reduces to the slippage test followed by the reserve_x update overflow test;
all other branches are unreachable. -/
theorem secure_swap_run (a m x y : Nat) (ha : 0 < a)
    (haU : a < U64_MOD) (hxU : x < U64_MOD) (hyU : y < U64_MOD) :
    secure_swap a m x y =
      if oracle_out a x y < m then
        Except.error "SlippageExceeded: output below minimum"
      else if x + a ≤ U64_MAX then
        Except.ok (oracle_out a x y, x + a, y - oracle_out a x y)
      else
        Except.error "MathOverflow: reserve_x overflow" := by
  have ha0 : ¬ a = 0 := by omega
  have hmul : a * y < U128_MOD := mul_fits_u128 a y haU hyU
  have hadd : x + a < U128_MOD := add_fits_u128 x a hxU haU
  have hden0 : ¬ (x + a = 0) := by omega
  have hqy : a * y / (x + a) ≤ y := oracle_le_reserve a x y
  have hq64 : a * y / (x + a) ≤ U64_MAX := by unfold U64_MAX; omega
  have hins : ¬ (a * y / (x + a) > y) := by omega
  unfold secure_swap checked_mul_u128 checked_add_u128 u64_try_from
    checked_add_u64 checked_sub_u64 oracle_out
  rw [if_neg ha0, if_pos hmul, if_pos hadd]
  simp only [if_neg hden0, if_pos hq64, if_neg hins]
  by_cases hm : a * y / (x + a) < m
  · rw [if_pos hm, if_pos hm]
  · rw [if_neg hm, if_neg hm]
    by_cases hxa : x + a ≤ U64_MAX
    · rw [if_pos hxa, if_pos hxa, if_pos hqy]
    · rw [if_neg hxa, if_neg hxa]

/-- A zero amount is rejected before any arithmetic: the result is the
InvalidAmount error whatever the other arguments are. -/
theorem secure_swap_zero_eq (m x y : Nat) :
    secure_swap 0 m x y = Except.error "InvalidAmount: amount_in is zero" := by
  unfold secure_swap
  simp

/-- Inversion of a successful secure_swap run: the output is the truncated
oracle quotient, the new reserves are the checked updates, the slippage bound
holds and the reserve_x update fits in u64. -/
theorem secure_swap_ok_inv (a m x y out nx ny : Nat) (ha : 0 < a)
    (haU : a < U64_MOD) (hxU : x < U64_MOD) (hyU : y < U64_MOD)
    (hok : secure_swap a m x y = Except.ok (out, nx, ny)) :
    out = a * y / (x + a) ∧ nx = x + a ∧ ny = y - out ∧ m ≤ out ∧
      x + a ≤ U64_MAX := by
  rw [secure_swap_run a m x y ha haU hxU hyU] at hok
  unfold oracle_out at hok
  by_cases hm : a * y / (x + a) < m
  · rw [if_pos hm] at hok
    exact absurd hok (by simp)
  · rw [if_neg hm] at hok
    by_cases hxa : x + a ≤ U64_MAX
    · rw [if_pos hxa] at hok
      simp only [Except.ok.injEq, Prod.mk.injEq] at hok
      obtain ⟨h1, h2, h3⟩ := hok
      refine ⟨h1.symm, h2.symm, ?_, ?_, hxa⟩
      · rw [← h3, h1]
      · rw [← h1]
        omega
    · rw [if_neg hxa] at hok
      exact absurd hok (by simp)

/-- Every error string secure_swap can return is one of the nine literals
appearing in the source. -/
theorem secure_swap_error_mem (a m x y : Nat) (e : String)
    (h : secure_swap a m x y = Except.error e) :
    e = "InvalidAmount: amount_in is zero" ∨
    e = "MathOverflow: numerator overflow" ∨
    e = "MathOverflow: denominator overflow" ∨
    e = "MathOverflow: division by zero" ∨
    e = "MathOverflow: result too large for u64" ∨
    e = "SlippageExceeded: output below minimum" ∨
    e = "InsufficientReserves: not enough Y in pool" ∨
    e = "MathOverflow: reserve_x overflow" ∨
    e = "MathOverflow: reserve_y underflow" := by
  unfold secure_swap at h
  repeat' split at h
  all_goals simp_all

/-- Truncating division rounds in favor of the pool: after the checked
updates the product of the reserves never decreases. -/
theorem constant_product_le (a x y : Nat) :
    x * y ≤ (x + a) * (y - a * y / (x + a)) := by
  have hq : a * y / (x + a) ≤ y := oracle_le_reserve a x y
  have h1 : a * y / (x + a) * (x + a) ≤ a * y := Nat.div_mul_le_self _ _
  generalize hgen : a * y / (x + a) = q at hq h1 ⊢
  obtain ⟨d, hd⟩ := Nat.le.dest hq
  have hyq : y - q = d := by omega
  rw [hyq]
  have e1 : q * (x + a) = x * q + a * q := by ring
  have e2 : a * y = a * q + a * d := by
    rw [← hd]
    ring
  have h2 : x * q ≤ a * d := by linarith
  have e3 : x * y = x * q + x * d := by
    rw [← hd]
    ring
  have e4 : (x + a) * d = x * d + a * d := by ring
  linarith

/-- C1: Oracle agreement. For every u64 input with positive reserves and a
positive amount, if secure_swap returns Ok then the returned amount_out is
exactly the unbounded-precision quotient amount_in * reserve_y divided by
(reserve_x + amount_in), truncated toward zero (Nat floor division). -/
theorem C1_oracle_agreement (a m x y : Nat)
    (haU : a < U64_MOD) (hxU : x < U64_MOD) (hyU : y < U64_MOD)
    (hx : 0 < x) (hy : 0 < y) (ha : 0 < a) :
    ∀ out nx ny, secure_swap a m x y = Except.ok (out, nx, ny) →
      out = a * y / (x + a) := by
  intro out nx ny hok
  exact (secure_swap_ok_inv a m x y out nx ny ha haU hxU hyU hok).1

/-- Witness for C1 at a concrete input: the normal-swap scenario of the test
suite succeeds and its output is the truncated oracle quotient. -/
theorem C1_oracle_agreement_witness :
    secure_swap 1000 900 1000000000 1000000000 =
      Except.ok (999, 1000001000, 999999001) ∧
    (999 : Nat) = 1000 * 1000000000 / (1000000000 + 1000) :=
  ⟨by rfl,
   C1_oracle_agreement 1000 900 1000000000 1000000000 (by decide) (by decide)
     (by decide) (by decide) (by decide) (by decide) 999 1000001000 999999001
     (by rfl)⟩

/-- C2: Overflow containment. If the exact quotient exceeded the u64 range
the swap would return the narrowing MathOverflow error, and whenever it
returns Ok the value is the exact quotient, in range, never wrapped. -/
theorem C2_overflow_containment (a m x y : Nat)
    (haU : a < U64_MOD) (hxU : x < U64_MOD) (hyU : y < U64_MOD)
    (hx : 0 < x) (hy : 0 < y) (ha : 0 < a) :
    (U64_MAX < a * y / (x + a) →
      secure_swap a m x y =
        Except.error "MathOverflow: result too large for u64") ∧
    ∀ out nx ny, secure_swap a m x y = Except.ok (out, nx, ny) →
      out = a * y / (x + a) ∧ out ≤ U64_MAX := by
  constructor
  · intro hgt
    have hle : a * y / (x + a) ≤ y := oracle_le_reserve a x y
    have : y ≤ U64_MAX := by unfold U64_MAX; omega
    omega
  · intro out nx ny hok
    have h := secure_swap_ok_inv a m x y out nx ny ha haU hxU hyU hok
    have hle : a * y / (x + a) ≤ y := oracle_le_reserve a x y
    refine ⟨h.1, ?_⟩
    rw [h.1]
    unfold U64_MAX
    omega

/-- Witness for C2 at a concrete input: a successful swap whose output equals
the exact quotient and fits in u64. -/
theorem C2_overflow_containment_witness :
    secure_swap 1000 0 1000000000 1000000000 =
      Except.ok (999, 1000001000, 999999001) ∧
    (999 : Nat) = 1000 * 1000000000 / (1000000000 + 1000) ∧
    (999 : Nat) ≤ U64_MAX :=
  ⟨by rfl,
   (C2_overflow_containment 1000 0 1000000000 1000000000 (by decide)
     (by decide) (by decide) (by decide) (by decide) (by decide)).2
     999 1000001000 999999001 (by rfl)⟩

/-- C3: Solvency. The swap returns the InsufficientReserves error exactly
when the truncated quotient exceeds reserve_y (which in fact never happens),
and on success amount_out is at most reserve_y. -/
theorem C3_solvency (a m x y : Nat)
    (haU : a < U64_MOD) (hxU : x < U64_MOD) (hyU : y < U64_MOD) :
    (secure_swap a m x y =
        Except.error "InsufficientReserves: not enough Y in pool" ↔
      y < a * y / (x + a)) ∧
    ∀ out nx ny, secure_swap a m x y = Except.ok (out, nx, ny) →
      out ≤ y := by
  have hle : a * y / (x + a) ≤ y := oracle_le_reserve a x y
  constructor
  · apply iff_of_false
    · rcases Nat.eq_zero_or_pos a with ha | ha
      · subst ha
        rw [secure_swap_zero_eq]
        simp
      · rw [secure_swap_run a m x y ha haU hxU hyU]
        unfold oracle_out
        by_cases hm : a * y / (x + a) < m
        · rw [if_pos hm]
          simp
        · rw [if_neg hm]
          by_cases hxa : x + a ≤ U64_MAX
          · rw [if_pos hxa]
            simp
          · rw [if_neg hxa]
            simp
    · omega
  · intro out nx ny hok
    rcases Nat.eq_zero_or_pos a with ha | ha
    · subst ha
      rw [secure_swap_zero_eq] at hok
      exact absurd hok (by simp)
    · have h := secure_swap_ok_inv a m x y out nx ny ha haU hxU hyU hok
      rw [h.1]
      omega

/-- Witness for C3 at a concrete input: a successful swap pays out no more
than the pool holds. -/
theorem C3_solvency_witness :
    (999 : Nat) ≤ 1000000000 :=
  (C3_solvency 1000 500 1000000000 1000000000 (by decide) (by decide)
    (by decide)).2 999 1000001000 999999001 (by rfl)

/-- C4: Slippage enforcement is strict below min_out: the SlippageExceeded
error is returned exactly when the truncated quotient is strictly below
min_out, an output equal to min_out passes, and with min_out zero the error
never occurs. -/
theorem C4_slippage_strict (a m x y : Nat)
    (haU : a < U64_MOD) (hxU : x < U64_MOD) (hyU : y < U64_MOD)
    (ha : 0 < a) :
    (secure_swap a m x y =
        Except.error "SlippageExceeded: output below minimum" ↔
      a * y / (x + a) < m) ∧
    (a * y / (x + a) = m →
      secure_swap a m x y ≠
        Except.error "SlippageExceeded: output below minimum") ∧
    secure_swap a 0 x y ≠
      Except.error "SlippageExceeded: output below minimum" := by
  have hrun := secure_swap_run a m x y ha haU hxU hyU
  have hrun0 := secure_swap_run a 0 x y ha haU hxU hyU
  unfold oracle_out at hrun hrun0
  have hiff : secure_swap a m x y =
      Except.error "SlippageExceeded: output below minimum" ↔
      a * y / (x + a) < m := by
    rw [hrun]
    by_cases hm : a * y / (x + a) < m
    · rw [if_pos hm]
      simp [hm]
    · rw [if_neg hm]
      by_cases hxa : x + a ≤ U64_MAX
      · rw [if_pos hxa]
        simp [hm]
      · rw [if_neg hxa]
        simp [hm]
  refine ⟨hiff, ?_, ?_⟩
  · intro heq hcl
    have := hiff.mp hcl
    omega
  · rw [hrun0]
    have hm0 : ¬ a * y / (x + a) < 0 := Nat.not_lt_zero _
    rw [if_neg hm0]
    by_cases hxa : x + a ≤ U64_MAX
    · rw [if_pos hxa]
      simp
    · rw [if_neg hxa]
      simp

/-- Witness for C4 at a concrete input: with min_out far above the
achievable output the swap fails with SlippageExceeded. -/
theorem C4_slippage_strict_witness :
    secure_swap 10 1000 100 100 =
      Except.error "SlippageExceeded: output below minimum" :=
  (C4_slippage_strict 10 1000 100 100 (by decide) (by decide) (by decide)
    (by decide)).1.mpr (by decide)

/-- C5: Zero-input rejection: with amount_in zero the swap returns the
InvalidAmount error no matter what the other arguments are. -/
theorem C5_zero_input_rejected (m x y : Nat) :
    secure_swap 0 m x y = Except.error "InvalidAmount: amount_in is zero" :=
  secure_swap_zero_eq m x y

/-- C6 counterexample: an input whose reserve_x update sum overflows u64
(reserve_x is u64 MAX, amount_in is 1) yet whose call fails with the
SlippageExceeded error, not a MathOverflow one, because the slippage check
runs before the checked reserve_x addition. -/
theorem C6_counterexample :
    U64_MAX < 18446744073709551615 + 1 ∧ (0 : Nat) < 1 ∧
    secure_swap 1 1 18446744073709551615 1 =
      Except.error "SlippageExceeded: output below minimum" ∧
    errorKind "SlippageExceeded: output below minimum" ≠ "MathOverflow" :=
  ⟨by decide, by decide, by rfl, by decide⟩

/-- C6 amended: on success the new reserves are exactly reserve_x plus
amount_in (strictly larger than reserve_x) and reserve_y minus amount_out (at
most reserve_y); when the sum reserve_x + amount_in overflows u64 the call
never returns Ok, and with min_out zero it fails with the reserve_x
MathOverflow error, though a failing slippage check fires earlier and
returns SlippageExceeded instead. -/
theorem C6_reserve_update (a m x y : Nat)
    (haU : a < U64_MOD) (hxU : x < U64_MOD) (hyU : y < U64_MOD)
    (ha : 0 < a) :
    (∀ out nx ny, secure_swap a m x y = Except.ok (out, nx, ny) →
      nx = x + a ∧ x < nx ∧ ny = y - out ∧ ny ≤ y) ∧
    (U64_MAX < x + a →
      (∀ r, secure_swap a m x y ≠ Except.ok r) ∧
      secure_swap a 0 x y =
        Except.error "MathOverflow: reserve_x overflow") := by
  constructor
  · intro out nx ny hok
    obtain ⟨h1, h2, h3, _, _⟩ :=
      secure_swap_ok_inv a m x y out nx ny ha haU hxU hyU hok
    refine ⟨h2, ?_, h3, ?_⟩
    · omega
    · rw [h3]
      exact Nat.sub_le y out
  · intro hover
    have hxa : ¬ x + a ≤ U64_MAX := by omega
    constructor
    · intro r hok
      rw [secure_swap_run a m x y ha haU hxU hyU] at hok
      by_cases hm : oracle_out a x y < m
      · rw [if_pos hm] at hok
        exact absurd hok (by simp)
      · rw [if_neg hm, if_neg hxa] at hok
        exact absurd hok (by simp)
    · rw [secure_swap_run a 0 x y ha haU hxU hyU]
      have hm0 : ¬ oracle_out a x y < 0 := Nat.not_lt_zero _
      rw [if_neg hm0, if_neg hxa]

/-- Witness for the amended C6: a successful concrete swap has exactly the
checked reserve updates, and a concrete overflowing update with min_out zero
fails with the reserve_x MathOverflow error. -/
theorem C6_reserve_update_witness :
    ((1000001000 : Nat) = 1000000000 + 1000 ∧ (1000000000 : Nat) < 1000001000 ∧
      (999999001 : Nat) = 1000000000 - 999 ∧ (999999001 : Nat) ≤ 1000000000) ∧
    secure_swap 1 0 18446744073709551615 1 =
      Except.error "MathOverflow: reserve_x overflow" :=
  ⟨(C6_reserve_update 1000 0 1000000000 1000000000 (by decide) (by decide)
     (by decide) (by decide)).1 999 1000001000 999999001 (by rfl),
   ((C6_reserve_update 1 0 18446744073709551615 1 (by decide) (by decide)
     (by decide) (by decide)).2 (by decide)).2⟩

/-- C7: Defensive checks are unreachable: for u64 inputs with a positive
amount the numerator multiplication and denominator addition always fit in
u128, the denominator is never zero, and the numerator-overflow,
denominator-overflow, division-by-zero and reserve_y-underflow error
branches can never be the result. -/
theorem C7_defensive_unreachable (a m x y : Nat)
    (haU : a < U64_MOD) (hxU : x < U64_MOD) (hyU : y < U64_MOD)
    (ha : 0 < a) :
    a * y < U128_MOD ∧ x + a < U128_MOD ∧ x + a ≠ 0 ∧
    secure_swap a m x y ≠ Except.error "MathOverflow: numerator overflow" ∧
    secure_swap a m x y ≠ Except.error "MathOverflow: denominator overflow" ∧
    secure_swap a m x y ≠ Except.error "MathOverflow: division by zero" ∧
    secure_swap a m x y ≠ Except.error "MathOverflow: reserve_y underflow" := by
  refine ⟨mul_fits_u128 a y haU hyU, add_fits_u128 x a hxU haU, by omega,
    ?_, ?_, ?_, ?_⟩ <;>
  · rw [secure_swap_run a m x y ha haU hxU hyU]
    by_cases hm : oracle_out a x y < m
    · rw [if_pos hm]
      simp
    · rw [if_neg hm]
      by_cases hxa : x + a ≤ U64_MAX
      · rw [if_pos hxa]
        simp
      · rw [if_neg hxa]
        simp

/-- Witness for C7 at a concrete input: the arithmetic bounds hold and none
of the defensive error branches is the result. -/
theorem C7_defensive_unreachable_witness :
    (1 : Nat) * 1 < U128_MOD ∧ (1 : Nat) + 1 < U128_MOD ∧ (1 : Nat) + 1 ≠ 0 ∧
    secure_swap 1 0 1 1 ≠ Except.error "MathOverflow: numerator overflow" ∧
    secure_swap 1 0 1 1 ≠ Except.error "MathOverflow: denominator overflow" ∧
    secure_swap 1 0 1 1 ≠ Except.error "MathOverflow: division by zero" ∧
    secure_swap 1 0 1 1 ≠ Except.error "MathOverflow: reserve_y underflow" :=
  C7_defensive_unreachable 1 0 1 1 (by decide) (by decide) (by decide)
    (by decide)

/-- C8 counterexample: the checked subtraction step of the engine, when it
would go negative, reports an error of the MathOverflow kind, not a distinct
MathUnderflow kind. -/
theorem C8_counterexample :
    sub_reserve_step 0 1 = Except.error "MathOverflow: reserve_y underflow" ∧
    errorKind "MathOverflow: reserve_y underflow" = "MathOverflow" ∧
    "MathOverflow" ≠ "MathUnderflow" :=
  ⟨by rfl, by decide, by decide⟩

/-- C8 amended: when the checked subtraction of the reserve update would go
negative the engine maps the failure to the error string of the MathOverflow
kind mentioning the underflow; the engine has no distinct MathUnderflow
kind and no error it returns is of that kind. -/
theorem C8_underflow_error_kind :
    (∀ y out : Nat, y < out →
      sub_reserve_step y out =
        Except.error "MathOverflow: reserve_y underflow" ∧
      errorKind "MathOverflow: reserve_y underflow" = "MathOverflow") ∧
    ∀ a m x y : Nat, ∀ e : String,
      secure_swap a m x y = Except.error e → errorKind e ≠ "MathUnderflow" := by
  constructor
  · intro y out hlt
    have hno : ¬ out ≤ y := by omega
    unfold sub_reserve_step checked_sub_u64
    rw [if_neg hno]
    exact ⟨rfl, by decide⟩
  · intro a m x y e h
    rcases secure_swap_error_mem a m x y e h with
      h1 | h1 | h1 | h1 | h1 | h1 | h1 | h1 | h1 <;> subst h1 <;> decide

/-- Witness for the amended C8: the concrete failing subtraction yields the
MathOverflow-kind error, and the error of a concrete failing call is not of
the MathUnderflow kind. -/
theorem C8_underflow_error_kind_witness :
    (sub_reserve_step 0 1 =
        Except.error "MathOverflow: reserve_y underflow" ∧
      errorKind "MathOverflow: reserve_y underflow" = "MathOverflow") ∧
    errorKind "InvalidAmount: amount_in is zero" ≠ "MathUnderflow" :=
  ⟨C8_underflow_error_kind.1 0 1 (by decide),
   C8_underflow_error_kind.2 0 0 0 0 "InvalidAmount: amount_in is zero"
     (by rfl)⟩

/-- C9: Constant product never decreases: whenever secure_swap returns Ok,
the exact product of the new reserves is at least the product of the old
ones, because the output is the floor of the exact quotient. -/
theorem C9_constant_product (a m x y : Nat)
    (haU : a < U64_MOD) (hxU : x < U64_MOD) (hyU : y < U64_MOD)
    (hx : 0 < x) (hy : 0 < y) :
    ∀ out nx ny, secure_swap a m x y = Except.ok (out, nx, ny) →
      x * y ≤ nx * ny := by
  intro out nx ny hok
  rcases Nat.eq_zero_or_pos a with ha | ha
  · subst ha
    rw [secure_swap_zero_eq] at hok
    exact absurd hok (by simp)
  · obtain ⟨h1, h2, h3, _, _⟩ :=
      secure_swap_ok_inv a m x y out nx ny ha haU hxU hyU hok
    rw [h2, h3, h1]
    exact constant_product_le a x y

/-- Witness for C9 at a concrete input: after the normal-swap scenario the
product of the reserves has not decreased. -/
theorem C9_constant_product_witness :
    (1000000000 : Nat) * 1000000000 ≤ 1000001000 * 999999001 :=
  C9_constant_product 1000 0 1000000000 1000000000 (by decide) (by decide)
    (by decide) (by decide) (by decide) 999 1000001000 999999001 (by rfl)

/-- C10: InsufficientReserves is unreachable for a live pool: with positive
reserves and a positive amount the truncated quotient is strictly below
reserve_y, the InsufficientReserves error is never returned, and on success
amount_out is strictly below reserve_y. -/
theorem C10_insufficient_unreachable (a m x y : Nat)
    (haU : a < U64_MOD) (hxU : x < U64_MOD) (hyU : y < U64_MOD)
    (hx : 0 < x) (hy : 0 < y) (ha : 0 < a) :
    a * y / (x + a) < y ∧
    secure_swap a m x y ≠
      Except.error "InsufficientReserves: not enough Y in pool" ∧
    ∀ out nx ny, secure_swap a m x y = Except.ok (out, nx, ny) →
      out < y := by
  have hlt : a * y / (x + a) < y := by
    have := oracle_lt_reserve a x y ha hx hy
    unfold oracle_out at this
    exact this
  refine ⟨hlt, ?_, ?_⟩
  · rw [secure_swap_run a m x y ha haU hxU hyU]
    by_cases hm : oracle_out a x y < m
    · rw [if_pos hm]
      simp
    · rw [if_neg hm]
      by_cases hxa : x + a ≤ U64_MAX
      · rw [if_pos hxa]
        simp
      · rw [if_neg hxa]
        simp
  · intro out nx ny hok
    have h := secure_swap_ok_inv a m x y out nx ny ha haU hxU hyU hok
    rw [h.1]
    exact hlt

/-- Witness for C10 at a concrete input: the quotient is below the reserve,
the call does not fail with InsufficientReserves, and the concrete success
pays out strictly less than the pool holds. -/
theorem C10_insufficient_unreachable_witness :
    (10 : Nat) * 100 / (100 + 10) < 100 ∧ (9 : Nat) < 100 :=
  ⟨(C10_insufficient_unreachable 10 0 100 100 (by decide) (by decide)
     (by decide) (by decide) (by decide) (by decide)).1,
   (C10_insufficient_unreachable 10 0 100 100 (by decide) (by decide)
     (by decide) (by decide) (by decide) (by decide)).2.2 9 110 91 (by rfl)⟩
